import Mathlib

/-!
Shallow embedding of the explorer drill-down controller of the
pass-culture data-insee-population dashboard
(src/dashboard/js/maps/explorer-map.js, src/dashboard/js/pages/explorer.js,
src/dashboard/js/components/filters.js).

Zoom values are modelled as rationals, department codes as strings, and a
population map as an association list from code to rational value.  Each
asynchronous JavaScript routine is modelled either as a pure function on an
explicit state record, or, where interleaving matters, as a step function over
an event trace with explicit suspension points.
-/

namespace ExplorerCore

/-! ## Color scale (explorer-map.js, makeColorScale) -/

/-- Embeds makeColorScale: the JS computes Math.max over all values and the
constant 1 and uses domain from 0 to that maximum.  We represent the returned
d3 scale by its domain endpoints, which is all the spec talks about. -/
def makeColorScale (values : List ℚ) : ℚ × ℚ :=
  (0, values.foldl max 1)

/-- Maximum of a nonempty list, 0 for the empty list (used only to state the
claim about makeColorScale). -/
def maxOf : List ℚ → ℚ
  | [] => 0
  | x :: xs => xs.foldl max x

theorem foldl_max_max (l : List ℚ) : ∀ a b : ℚ, l.foldl max (max a b) = max a (l.foldl max b) := by
  induction l with
  | nil => intro a b; rfl
  | cons c l ih =>
    intro a b
    show l.foldl max (max (max a b) c) = max a ((c :: l).foldl max b)
    rw [max_assoc, ih]
    rfl

theorem foldl_max_one (l : List ℚ) : l.foldl max 1 = max 1 (maxOf l) := by
  cases l with
  | nil => simp [maxOf]
  | cons x xs =>
    show xs.foldl max (max 1 x) = max 1 (maxOf (x :: xs))
    rw [foldl_max_max]
    rfl

/-! ## Sub-level cache state (explorer-map.js closure variables)

For one sub-level (canton or iris) the map controller closure keeps:
loadedCantonDept / loadedIrisDept, cantonLoadingDept / irisLoadingDept,
cantonPopMap / irisPopMap, cantonColorScale / irisColorScale,
cantonCodeKey / irisCodeKey, and the presence of the fill and outline layers
plus the geojson source. -/

structure SubState where
  loadedDept : Option String
  loadingDept : Option String
  popMap : List (String × ℚ)
  colorScale : Option (ℚ × ℚ)
  hasLayers : Bool
  codeKey : Option String
deriving DecidableEq, Repr

/-- Embeds clearCantonLayer / clearIrisLayer: removes the layers and source
and resets every closure variable of the sub-level at once. -/
def clearedSub : SubState :=
  { loadedDept := none, loadingDept := none, popMap := [],
    colorScale := none, hasLayers := false, codeKey := none }

/-- Outcome of the boundary-asset fetch inside loadCanton / loadIris:
non-success or non-json response, a thrown fetch error, or a parsed feature
collection (we keep its feature count and the detected code property key,
the only parts the controller reads). -/
inductive FetchResult where
  | notOk : FetchResult
  | fetchErr : FetchResult
  | ok : ℕ → String → FetchResult
deriving DecidableEq, Repr

def isFailure : FetchResult → Bool
  | .notOk => true
  | .fetchErr => true
  | .ok n _ => decide (n = 0)

/-- Embeds loadCanton / loadIris (both have the same body up to renaming).
Returns the list of cache states observable at suspension points (the single
await on the boundary fetch) together with the final state.  Mirrors the
source: early return when the department is already resident, eager
clearCantonLayer before the fetch, failure branches that only reset the
in-flight marker, and a single synchronous installation block on success. -/
def loadSub (s : SubState) (dept : String) (data : List (String × ℚ))
    (res : FetchResult) : List SubState × SubState :=
  if s.loadedDept = some dept then
    ([], { s with loadingDept := none })
  else
    match res with
    | .notOk => ([clearedSub], clearedSub)
    | .fetchErr => ([clearedSub], clearedSub)
    | .ok n key =>
      if n = 0 then ([clearedSub], clearedSub)
      else
        ([clearedSub],
          { loadedDept := some dept, loadingDept := none, popMap := data,
            colorScale := some (makeColorScale (data.map Prod.snd)),
            hasLayers := true, codeKey := some key })

def loadCanton : SubState → String → List (String × ℚ) → FetchResult →
    List SubState × SubState := loadSub

def loadIris : SubState → String → List (String × ℚ) → FetchResult →
    List SubState × SubState := loadSub

/-- A cache state is consistent (all-or-nothing) when the layers, the color
scale and the code key are present exactly when an owner department is
recorded, the color scale is the one derived from the current population map,
and an absent owner goes with an empty population map. -/
def consistentSub (s : SubState) : Prop :=
  s.hasLayers = s.loadedDept.isSome
  ∧ s.codeKey.isSome = s.loadedDept.isSome
  ∧ s.colorScale =
      (if s.loadedDept.isSome then some (makeColorScale (s.popMap.map Prod.snd)) else none)
  ∧ (s.loadedDept.isSome = false → s.popMap = [])

instance (s : SubState) : Decidable (consistentSub s) := by
  unfold consistentSub
  infer_instance

theorem consistentSub_cleared : consistentSub clearedSub := by decide

theorem consistentSub_clearLoading (s : SubState) (h : consistentSub s) :
    consistentSub { s with loadingDept := none } := h

theorem loadSub_safe (s : SubState) (dept : String) (data : List (String × ℚ))
    (res : FetchResult) (h : consistentSub s) :
    (∀ t ∈ (loadSub s dept data res).1, consistentSub t)
    ∧ consistentSub (loadSub s dept data res).2
    ∧ (isFailure res = true →
        (loadSub s dept data res).2 = { s with loadingDept := none }
        ∨ (loadSub s dept data res).2 = clearedSub) := by
  unfold loadSub
  by_cases hr : s.loadedDept = some dept
  · rw [if_pos hr]
    refine ⟨by intro t ht; simp at ht, consistentSub_clearLoading s h, fun _ => Or.inl rfl⟩
  · rw [if_neg hr]
    cases res with
    | notOk =>
      exact ⟨by intro t ht; simp at ht; simp [ht, consistentSub_cleared],
        consistentSub_cleared, fun _ => Or.inr rfl⟩
    | fetchErr =>
      exact ⟨by intro t ht; simp at ht; simp [ht, consistentSub_cleared],
        consistentSub_cleared, fun _ => Or.inr rfl⟩
    | ok n key =>
      by_cases hn : n = 0
      · simp only [hn, if_pos rfl]
        exact ⟨by intro t ht; simp at ht; simp [ht, consistentSub_cleared],
          consistentSub_cleared, fun _ => Or.inr rfl⟩
      · simp only [if_neg hn]
        refine ⟨by intro t ht; simp at ht; simp [ht, consistentSub_cleared], ?_, ?_⟩
        · exact ⟨rfl, rfl, rfl, by intro hfalse; simp at hfalse⟩
        · intro hf
          exfalso
          simp [isFailure, hn] at hf

/-! ## Zoom thresholds (explorer-map.js constants) -/

def CANTON_ZOOM_THRESHOLD : ℚ := 9
def CANTON_ZOOM_OUT : ℚ := 8
def IRIS_ZOOM_THRESHOLD : ℚ := 11

/-- Actions decided by one moveend settle event: each request carries the
department it targets. -/
structure MoveendActions where
  cantonRequest : Option String
  cantonEvicted : Bool
  irisRequest : Option String
  irisEvicted : Bool
deriving DecidableEq, Repr

/-- The load-request guard common to both sub-levels of the moveend handler:
a request fires when zoom has reached the load threshold, the center
department is known, and it differs from both the resident owner and the
in-flight target. -/
def subRequest (threshold zoom : ℚ) (center : Option String) (s : SubState) : Option String :=
  match center with
  | some c =>
    if threshold ≤ zoom ∧ s.loadedDept ≠ some c ∧ s.loadingDept ≠ some c
    then some c else none
  | none => none

/-- Marking the in-flight department when a request fires
(cantonLoadingDept = centerDeptCode / irisLoadingDept = centerDeptCode). -/
def markLoading (s : SubState) : Option String → SubState
  | some c => { s with loadingDept := some c }
  | none => s

/-- Embeds the moveend handler of explorer-map.js (after the
detectCenterDepartment call; the detected center is the argument): the
canton auto-load trigger marks the in-flight department and emits a request,
the canton eviction clears the whole sub-level, and the iris pair is
symmetric with thresholds 11 and 11 - 1. -/
def moveendStep (zoom : ℚ) (center : Option String) (canton iris : SubState) :
    MoveendActions × SubState × SubState :=
  let cantonReq := subRequest CANTON_ZOOM_THRESHOLD zoom center canton
  let canton1 := markLoading canton cantonReq
  let evC : Bool := decide (zoom < CANTON_ZOOM_OUT) && canton1.loadedDept.isSome
  let canton2 := if evC then clearedSub else canton1
  let irisReq := subRequest IRIS_ZOOM_THRESHOLD zoom center iris
  let iris1 := markLoading iris irisReq
  let evI : Bool := decide (zoom < IRIS_ZOOM_THRESHOLD - 1) && iris1.loadedDept.isSome
  let iris2 := if evI then clearedSub else iris1
  (⟨cantonReq, evC, irisReq, evI⟩, canton2, iris2)

/-! ## Page-level level routing and loaders (pages/explorer.js) -/

inductive Level where
  | department : Level
  | epci : Level
  | canton : Level
  | iris : Level
deriving DecidableEq, Repr

/-- Embeds the onZoomChange callback of renderExplorer, which sets the
activeLevel used for the legend: it reads only the zoom value. -/
def onZoomChange (zoom : ℚ) : Level :=
  if 11 ≤ zoom then Level.iris
  else if 9 ≤ zoom then Level.canton
  else if 7.5 ≤ zoom then Level.epci
  else Level.department

/-- Modelled from the spec words of section 4.1 for comparison with
onZoomChange: the claimed active level additionally conditions the canton
band on a canton set being resident for the center department, and the iris
band on iris or canton residency. -/
def activeLevelSpec (zoom : ℚ) (cantonResidentForCenter irisResident cantonResident : Bool) :
    Level :=
  if zoom < 7.5 then Level.department
  else if zoom < 9 then Level.epci
  else if zoom < 11 then (if cantonResidentForCenter then Level.canton else Level.epci)
  else if irisResident then Level.iris
  else if cantonResident then Level.canton
  else Level.epci

/-- Outcome of handleCantonNeeded as observable from the canton loader: the
view can be unavailable, the small-department path skips to iris, or the
canton layer is installed from the queried rows. -/
inductive CantonAction where
  | unavailable : CantonAction
  | skipToIris : String → CantonAction
  | installCanton : String → List (String × ℚ) → CantonAction
deriving DecidableEq, Repr

/-- Embeds the decision structure of handleCantonNeeded in pages/explorer.js:
null view name means unavailable, at most 2 aggregate rows means the canton
set is discarded and handleIrisNeeded is invoked for the same department,
otherwise loadCanton is invoked with the rows. -/
def handleCantonNeeded (dept : String) (viewAvailable : Bool) (rows : List (String × ℚ)) :
    CantonAction :=
  if viewAvailable = false then CantonAction.unavailable
  else if rows.length ≤ 2 then CantonAction.skipToIris dept
  else CantonAction.installCanton dept rows

/-- Embeds handleIrisNeeded acting on the iris cache: when the iris view is
available, the queried rows are passed to loadIris. -/
def runIrisNeeded (dept : String) (viewAvailable : Bool) (rows : List (String × ℚ))
    (res : FetchResult) (iris : SubState) : SubState :=
  if viewAvailable then (loadIris iris dept rows res).2 else iris

/-- Embeds handleCantonNeeded acting on the two sub-level caches, threading
the canton state through loadCanton on the install path and the iris state
through handleIrisNeeded on the small-department path. -/
def runCantonNeeded (dept : String) (viewAvailable : Bool) (rows : List (String × ℚ))
    (cres : FetchResult) (irisViewAvailable : Bool) (irisRows : List (String × ℚ))
    (ires : FetchResult) (canton iris : SubState) : SubState × SubState :=
  if viewAvailable = false then (canton, iris)
  else if rows.length ≤ 2 then
    (canton, runIrisNeeded dept irisViewAvailable irisRows ires iris)
  else
    ((loadCanton canton dept rows cres).2, iris)

/-! ## Breadcrumb navigator (pages/explorer.js) -/

structure Crumb where
  level : Level
  code : Option String
  name : String
deriving DecidableEq, Repr

/-- Embeds resetBreadcrumb: the path restarts at the nation root. -/
def resetBreadcrumb : List Crumb :=
  [{ level := Level.department, code := none, name := "France" }]

/-- Embeds the onUnitClick callback passed to createExplorerMap: the previous
breadcrumb is discarded, the path restarts from resetBreadcrumb, a canton or
iris click inserts the owner department read from getLoadedCantonDept or
getLoadedIrisDept (with its name looked up through deptNameMap, here the
function deptName), and the clicked unit is appended last. -/
def onUnitClick (prev : List Crumb) (level : Level) (code name : String)
    (loadedCantonDept loadedIrisDept : Option String) (deptName : String → String) :
    List Crumb :=
  let _ := prev
  let base := resetBreadcrumb
  match level with
  | Level.department => base ++ [{ level := Level.department, code := some code, name := name }]
  | Level.epci => base ++ [{ level := Level.epci, code := some code, name := name }]
  | Level.canton =>
    (base ++ (match loadedCantonDept with
      | some d => [{ level := Level.department, code := some d, name := deptName d }]
      | none => []))
      ++ [{ level := Level.canton, code := some code, name := name }]
  | Level.iris =>
    (base ++ (match loadedIrisDept with
      | some d => [{ level := Level.department, code := some d, name := deptName d }]
      | none => []))
      ++ [{ level := Level.iris, code := some code, name := name }]

/-! ## Global filter store (components/filters.js) -/

/-- Listener ids stand in for the registered callback closures. -/
structure FilterListeners where
  listeners : List ℕ
deriving DecidableEq, Repr

/-- Embeds onFilterChange of components/filters.js: the callback is pushed on
state listeners and the function body ends without a return statement, so the
call evaluates to undefined (none); in particular no unsubscribe handle is
produced. -/
def onFilterChange (st : FilterListeners) (fn : ℕ) :
    FilterListeners × Option (FilterListeners → FilterListeners) :=
  ({ listeners := st.listeners ++ [fn] }, none)

/-- The two module-level globals of pages/explorer.js that the re-entry
cleanup reads: the filter store and the stored unsubscribeFilters value. -/
structure ExplorerGlobals where
  filterState : FilterListeners
  unsubscribeFilters : Option (FilterListeners → FilterListeners)

/-- Embeds the subscription lifecycle of renderExplorer: the cleanup block
calls unsubscribeFilters when it is truthy, then the new listener is
registered and the return value of onFilterChange is stored back into
unsubscribeFilters. -/
def renderExplorerSubscribe (g : ExplorerGlobals) (fn : ℕ) : ExplorerGlobals :=
  let g1 : ExplorerGlobals := match g.unsubscribeFilters with
    | some u => { filterState := u g.filterState, unsubscribeFilters := none }
    | none => g
  let r := onFilterChange g1.filterState fn
  { filterState := r.1, unsubscribeFilters := r.2 }

/-! ## Filter reactor (the onFilterChange listener body in renderExplorer) -/

inductive Outcome where
  | ok : Outcome
  | failed : Outcome
deriving DecidableEq, Repr

instance : Fintype Outcome :=
  ⟨⟨{Outcome.ok, Outcome.failed}, by decide⟩, by intro x; cases x <;> decide⟩

/-- Observable effects of one run of the filter-change listener. -/
inductive RefreshEffect where
  | updateDeptEpci : RefreshEffect
  | updateCanton : RefreshEffect
  | cantonWarn : RefreshEffect
  | updateIris : RefreshEffect
  | irisWarn : RefreshEffect
  | refreshSidebar : RefreshEffect
  | legend : RefreshEffect
deriving DecidableEq, Repr

/-- Embeds the async listener registered by renderExplorer on filter change,
as the ordered list of effects it performs given the outcome of each awaited
call.  The department and EPCI re-query is not inside a try block, so its
rejection aborts the listener before anything else runs; the canton and iris
refreshes each have their own try/catch; the sidebar re-fetch is awaited
without a try block, so its rejection skips the final legend update. -/
def filterChangeListener (deptEpci cantonQ irisQ sidebar : Outcome)
    (cantonLoaded irisLoaded hasSelected : Bool) : List RefreshEffect :=
  match deptEpci with
  | Outcome.failed => []
  | Outcome.ok =>
    [RefreshEffect.updateDeptEpci]
    ++ (if cantonLoaded then
          match cantonQ with
          | Outcome.ok => [RefreshEffect.updateCanton]
          | Outcome.failed => [RefreshEffect.cantonWarn]
        else [])
    ++ (if irisLoaded then
          match irisQ with
          | Outcome.ok => [RefreshEffect.updateIris]
          | Outcome.failed => [RefreshEffect.irisWarn]
        else [])
    ++ (if hasSelected then
          match sidebar with
          | Outcome.ok => [RefreshEffect.refreshSidebar, RefreshEffect.legend]
          | Outcome.failed => []
        else [RefreshEffect.legend])

/-! ## Event-interleaving model of the asynchronous loads

The single-threaded event loop is modelled as a trace of events, each of
which runs one synchronous segment of the source between two suspension
points: a moveend settle, the resumption of handleCantonNeeded /
handleIrisNeeded after its aggregate query, and the resumption of
loadCanton / loadIris after its boundary fetch.  Pending queries and pending
fetches record the started-but-not-resumed segments. -/

structure GState where
  canton : SubState
  iris : SubState
  centerDeptCode : Option String
  pendingCantonQuery : List String
  pendingCantonFetch : List (String × List (String × ℚ))
  pendingIrisQuery : List String
  pendingIrisFetch : List (String × List (String × ℚ))
deriving DecidableEq, Repr

def initGState : GState :=
  { canton := clearedSub, iris := clearedSub, centerDeptCode := none,
    pendingCantonQuery := [], pendingCantonFetch := [],
    pendingIrisQuery := [], pendingIrisFetch := [] }

inductive Ev where
  | moveend : ℚ → Option String → Ev
  | cantonQueryDone : String → Bool → List (String × ℚ) → Ev
  | cantonFetchDone : String → FetchResult → Ev
  | irisQueryDone : String → Bool → List (String × ℚ) → Ev
  | irisFetchDone : String → FetchResult → Ev
deriving DecidableEq, Repr

/-- Synchronous segment of loadCanton / loadIris up to the await on the
boundary fetch: early return when the department is already resident, else
an eager clear of the whole sub-level before the fetch is started. -/
def loadSubEntry (s : SubState) (dept : String) (rows : List (String × ℚ))
    (pend : List (String × List (String × ℚ))) :
    SubState × List (String × List (String × ℚ)) :=
  if s.loadedDept = some dept then ({ s with loadingDept := none }, pend)
  else (clearedSub, pend ++ [(dept, rows)])

/-- Synchronous segment of loadCanton / loadIris after the boundary fetch
resolves, acting on whatever the sub-level state is at that moment.  On a
successful nonempty feature collection the source sets the code key, the
population map and the color scale, then calls addSource: when layers from a
competing load are already present the addSource call throws, leaving the
owner and in-flight markers untouched; otherwise installation completes. -/
def loadSubResume (s : SubState) (dept : String) (rows : List (String × ℚ))
    (res : FetchResult) : SubState :=
  match res with
  | FetchResult.notOk => { s with loadingDept := none }
  | FetchResult.fetchErr => { s with loadingDept := none }
  | FetchResult.ok n key =>
    if n = 0 then { s with loadingDept := none }
    else if s.hasLayers then
      { s with
        codeKey := some key, popMap := rows,
        colorScale := some (makeColorScale (rows.map Prod.snd)) }
    else
      { loadedDept := some dept, loadingDept := none, popMap := rows,
        colorScale := some (makeColorScale (rows.map Prod.snd)),
        hasLayers := true, codeKey := some key }

def stepEv (g : GState) (e : Ev) : GState :=
  match e with
  | Ev.moveend z c =>
    let center := match c with
      | some cc => some cc
      | none => g.centerDeptCode
    let r := moveendStep z center g.canton g.iris
    { g with
      canton := r.2.1, iris := r.2.2, centerDeptCode := center,
      pendingCantonQuery := g.pendingCantonQuery
        ++ (match r.1.cantonRequest with | some d => [d] | none => []),
      pendingIrisQuery := g.pendingIrisQuery
        ++ (match r.1.irisRequest with | some d => [d] | none => []) }
  | Ev.cantonQueryDone d viewOk rows =>
    if g.pendingCantonQuery.contains d then
      let g0 := { g with pendingCantonQuery := g.pendingCantonQuery.erase d }
      if viewOk = false then g0
      else if rows.length ≤ 2 then
        { g0 with pendingIrisQuery := g0.pendingIrisQuery ++ [d] }
      else
        let r := loadSubEntry g0.canton d rows g0.pendingCantonFetch
        { g0 with canton := r.1, pendingCantonFetch := r.2 }
    else g
  | Ev.cantonFetchDone d res =>
    match g.pendingCantonFetch.find? (fun p => p.1 = d) with
    | none => g
    | some pr =>
      { g with
        canton := loadSubResume g.canton d pr.2 res,
        pendingCantonFetch := g.pendingCantonFetch.eraseP (fun p => p.1 = d) }
  | Ev.irisQueryDone d viewOk rows =>
    if g.pendingIrisQuery.contains d then
      let g0 := { g with pendingIrisQuery := g.pendingIrisQuery.erase d }
      if viewOk = false then g0
      else
        let r := loadSubEntry g0.iris d rows g0.pendingIrisFetch
        { g0 with iris := r.1, pendingIrisFetch := r.2 }
    else g
  | Ev.irisFetchDone d res =>
    match g.pendingIrisFetch.find? (fun p => p.1 = d) with
    | none => g
    | some pr =>
      { g with
        iris := loadSubResume g.iris d pr.2 res,
        pendingIrisFetch := g.pendingIrisFetch.eraseP (fun p => p.1 = d) }

def runTrace (tr : List Ev) : GState :=
  tr.foldl stepEv initGState

/-! ## Claim theorems -/

/-- C1 counterexample: at zoom 9.5 with no canton set resident, the
onZoomChange callback still routes the active level to canton, while the
claimed threshold table (conditioned on residency) yields epci. -/
theorem c1_zoom_only_cex :
    onZoomChange (19 / 2) = Level.canton
    ∧ activeLevelSpec (19 / 2) false false false = Level.epci
    ∧ onZoomChange (19 / 2) ≠ activeLevelSpec (19 / 2) false false false := by
  refine ⟨?_, ?_, ?_⟩ <;> norm_num [onZoomChange, activeLevelSpec]
  decide

/-- C1 (amended): the active level used for the legend/click-routing role is
a pure function of zoom alone — zoom < 7.5 gives department, 7.5 ≤ zoom < 9
gives epci, 9 ≤ zoom < 11 gives canton, zoom ≥ 11 gives iris — with no
dependence on resident-set state. -/
theorem c1_active_level_of_zoom (z : ℚ) :
    (z < 7.5 → onZoomChange z = Level.department)
    ∧ (7.5 ≤ z → z < 9 → onZoomChange z = Level.epci)
    ∧ (9 ≤ z → z < 11 → onZoomChange z = Level.canton)
    ∧ (11 ≤ z → onZoomChange z = Level.iris) := by
  refine ⟨fun h => ?_, fun h1 h2 => ?_, fun h1 h2 => ?_, fun h => ?_⟩ <;>
    unfold onZoomChange <;> split_ifs <;> first | rfl | linarith

/-- C1 witness: the amended theorem evaluated at zooms 5, 8, 9.5 and 12. -/
theorem c1_active_level_of_zoom_w :
    onZoomChange 5 = Level.department ∧ onZoomChange 8 = Level.epci
    ∧ onZoomChange (19 / 2) = Level.canton ∧ onZoomChange 12 = Level.iris :=
  ⟨(c1_active_level_of_zoom 5).1 (by norm_num),
   (c1_active_level_of_zoom 8).2.1 (by norm_num) (by norm_num),
   (c1_active_level_of_zoom (19 / 2)).2.2.1 (by norm_num) (by norm_num),
   (c1_active_level_of_zoom 12).2.2.2 (by norm_num)⟩

theorem foldl_max_fixed (l : List ℚ) : ∀ a : ℚ, (∀ v ∈ l, v ≤ a) → l.foldl max a = a := by
  induction l with
  | nil => intro a _; rfl
  | cons x xs ih =>
    intro a h
    show xs.foldl max (max a x) = a
    rw [max_eq_left (h x (by simp))]
    exact ih a (fun v hv => h v (by simp [hv]))

theorem maxOf_all_zero (vs : List ℚ) (h : ∀ v ∈ vs, v = 0) : maxOf vs = 0 := by
  cases vs with
  | nil => rfl
  | cons x xs =>
    show xs.foldl max x = 0
    have hx : x = 0 := h x (by simp)
    subst hx
    exact foldl_max_fixed xs 0 (fun v hv => le_of_eq (h v (by simp [hv])))

/-- C7: for every level the color scale built from a value set V has domain
from 0 to max(1, max(V)); hence 0 ≤ lower < upper, and an empty or all-zero
value set yields upper = 1, never 0. -/
theorem c7_color_scale_domain (vs : List ℚ) :
    makeColorScale vs = (0, max 1 (maxOf vs))
    ∧ 0 ≤ (makeColorScale vs).1
    ∧ (makeColorScale vs).1 < (makeColorScale vs).2
    ∧ ((∀ v ∈ vs, v = 0) → (makeColorScale vs).2 = 1)
    ∧ (vs = [] → (makeColorScale vs).2 = 1) := by
  have hdom : makeColorScale vs = (0, max 1 (maxOf vs)) := by
    unfold makeColorScale
    rw [foldl_max_one]
  refine ⟨hdom, ?_, ?_, ?_, ?_⟩
  · rw [hdom]
  · rw [hdom]
    exact lt_of_lt_of_le one_pos (le_max_left 1 (maxOf vs))
  · intro h
    rw [hdom]
    simp [maxOf_all_zero vs h]
  · intro h
    subst h
    rfl

/-- C7 witness: the theorem evaluated on the all-zero value set. -/
theorem c7_color_scale_domain_w : (makeColorScale [0, 0]).2 = 1 :=
  (c7_color_scale_domain [0, 0]).2.2.2.1 (by decide)

/-- C4: when the canton aggregate query for a department returns at most 2
rows, handleCantonNeeded discards the canton rows (loadCanton is never
invoked, the canton cache is untouched) and triggers the iris load path for
the same department instead. -/
theorem c4_small_canton_skips_to_iris (dept : String) (rows : List (String × ℚ))
    (cres : FetchResult) (ia : Bool) (irows : List (String × ℚ)) (ires : FetchResult)
    (canton iris : SubState) (h : rows.length ≤ 2) :
    handleCantonNeeded dept true rows = CantonAction.skipToIris dept
    ∧ (runCantonNeeded dept true rows cres ia irows ires canton iris).1 = canton
    ∧ (runCantonNeeded dept true rows cres ia irows ires canton iris).2
        = runIrisNeeded dept ia irows ires iris := by
  unfold handleCantonNeeded runCantonNeeded
  simp [h]

/-- C4 witness: department 75 with exactly one canton aggregate row. -/
theorem c4_small_canton_skips_to_iris_w :
    handleCantonNeeded "75" true [("7501", 2100000)] = CantonAction.skipToIris "75" :=
  (c4_small_canton_skips_to_iris "75" [("7501", 2100000)] FetchResult.notOk true []
    FetchResult.notOk clearedSub clearedSub (by decide)).1

/-- C8: every unit click rebuilds the breadcrumb from scratch: a canton or
iris click yields nation, the owner department of the resident sub-level
set, then the unit; a department or epci click yields nation then the unit.
The result never depends on the previous path. -/
theorem c8_breadcrumb_rebuilt (prev : List Crumb) (code name d : String)
    (lcd ldi : Option String) (deptName : String → String) :
    onUnitClick prev Level.canton code name (some d) ldi deptName
      = [{ level := Level.department, code := none, name := "France" },
         { level := Level.department, code := some d, name := deptName d },
         { level := Level.canton, code := some code, name := name }]
    ∧ onUnitClick prev Level.iris code name lcd (some d) deptName
      = [{ level := Level.department, code := none, name := "France" },
         { level := Level.department, code := some d, name := deptName d },
         { level := Level.iris, code := some code, name := name }]
    ∧ onUnitClick prev Level.department code name lcd ldi deptName
      = [{ level := Level.department, code := none, name := "France" },
         { level := Level.department, code := some code, name := name }]
    ∧ onUnitClick prev Level.epci code name lcd ldi deptName
      = [{ level := Level.department, code := none, name := "France" },
         { level := Level.epci, code := some code, name := name }] :=
  ⟨rfl, rfl, rfl, rfl⟩

/-- C8 witness: clicking canton 7501 while the resident canton set is owned
by department 75 yields the path France, departement 75, canton 7501,
whatever breadcrumb was displayed before. -/
theorem c8_breadcrumb_rebuilt_w :
    onUnitClick [{ level := Level.epci, code := some "200054781", name := "MGP" }]
        Level.canton "7501" "Canton 7501" (some "75") none (fun c => c)
      = [{ level := Level.department, code := none, name := "France" },
         { level := Level.department, code := some "75", name := "75" },
         { level := Level.canton, code := some "7501", name := "Canton 7501" }] :=
  (c8_breadcrumb_rebuilt [{ level := Level.epci, code := some "200054781", name := "MGP" }]
    "7501" "Canton 7501" "75" none none (fun c => c)).1

/-- C3: for every canton or iris load, installation is atomic — every cache
state observable at a suspension point of loadCanton / loadIris is
consistent (layers, population map and derived color scale present together
or absent together) — and every failure path (non-success or non-json
response, fetch error, empty feature set) ends in a state that is either the
initial one with the in-flight marker cleared or the fully evicted state,
never a mix of old and new components. -/
theorem c3_atomic_installation (s : SubState) (dept : String)
    (data : List (String × ℚ)) (res : FetchResult) (h : consistentSub s) :
    (∀ t ∈ (loadCanton s dept data res).1, consistentSub t)
    ∧ consistentSub (loadCanton s dept data res).2
    ∧ (isFailure res = true →
        (loadCanton s dept data res).2 = { s with loadingDept := none }
        ∨ (loadCanton s dept data res).2 = clearedSub)
    ∧ (∀ t ∈ (loadIris s dept data res).1, consistentSub t)
    ∧ consistentSub (loadIris s dept data res).2
    ∧ (isFailure res = true →
        (loadIris s dept data res).2 = { s with loadingDept := none }
        ∨ (loadIris s dept data res).2 = clearedSub) := by
  have hc := loadSub_safe s dept data res h
  exact ⟨hc.1, hc.2.1, hc.2.2, hc.1, hc.2.1, hc.2.2⟩

/-- C3 witness: a failed canton fetch starting from a consistent resident
state for department 92 leaves the fully evicted state. -/
theorem c3_atomic_installation_w :
    consistentSub (loadCanton
      { loadedDept := some "92", loadingDept := none, popMap := [("9201", 10)],
        colorScale := some (makeColorScale [10]), hasLayers := true,
        codeKey := some "can_code" } "75" [("7501", 5)] FetchResult.notOk).2
    ∧ (loadCanton
      { loadedDept := some "92", loadingDept := none, popMap := [("9201", 10)],
        colorScale := some (makeColorScale [10]), hasLayers := true,
        codeKey := some "can_code" } "75" [("7501", 5)] FetchResult.notOk).2 = clearedSub :=
  ⟨(c3_atomic_installation
      { loadedDept := some "92", loadingDept := none, popMap := [("9201", 10)],
        colorScale := some (makeColorScale [10]), hasLayers := true,
        codeKey := some "can_code" } "75" [("7501", 5)] FetchResult.notOk (by decide)).2.1,
   by decide⟩

theorem subscribe_clears_handle (g : ExplorerGlobals) (fn : ℕ) :
    (renderExplorerSubscribe g fn).unsubscribeFilters = none := rfl

theorem subscribe_appends (g : ExplorerGlobals) (fn : ℕ)
    (h : g.unsubscribeFilters = none) :
    (renderExplorerSubscribe g fn).filterState.listeners
      = g.filterState.listeners ++ [fn] := by
  unfold renderExplorerSubscribe onFilterChange
  rw [h]

theorem subscribe_foldl (fns : List ℕ) :
    ∀ g : ExplorerGlobals, g.unsubscribeFilters = none →
    (fns.foldl renderExplorerSubscribe g).filterState.listeners
      = g.filterState.listeners ++ fns := by
  induction fns with
  | nil => intro g _; simp
  | cons f fs ih =>
    intro g h
    show (fs.foldl renderExplorerSubscribe (renderExplorerSubscribe g f)).filterState.listeners = _
    rw [ih (renderExplorerSubscribe g f) (subscribe_clears_handle g f),
      subscribe_appends g f h]
    simp

/-- C9: onFilterChange appends the listener and returns undefined, so the
stored unsubscribeFilters value is never truthy after subscribing, the
cleanup branch of renderExplorer never removes the previous listener, and
listeners accumulate across re-entries of the explorer view. -/
theorem c9_listeners_accumulate (st : FilterListeners) (fn : ℕ)
    (g : ExplorerGlobals) (fns : List ℕ) (h : g.unsubscribeFilters = none) :
    onFilterChange st fn = ({ listeners := st.listeners ++ [fn] }, none)
    ∧ (renderExplorerSubscribe g fn).unsubscribeFilters = none
    ∧ (renderExplorerSubscribe g fn).filterState.listeners
        = g.filterState.listeners ++ [fn]
    ∧ (fns.foldl renderExplorerSubscribe g).filterState.listeners
        = g.filterState.listeners ++ fns :=
  ⟨rfl, subscribe_clears_handle g fn, subscribe_appends g fn h, subscribe_foldl fns g h⟩

/-- C9 witness: three successive re-entries starting from the pristine
module state leave three registered listeners and no unsubscribe handle. -/
theorem c9_listeners_accumulate_w :
    (([1, 2, 3] : List ℕ).foldl renderExplorerSubscribe
        { filterState := { listeners := [] }, unsubscribeFilters := none }).filterState.listeners
      = [1, 2, 3] := by
  have h := (c9_listeners_accumulate { listeners := [] } 0
    { filterState := { listeners := [] }, unsubscribeFilters := none } [1, 2, 3] rfl).2.2.2
  simpa using h

/-- C6 counterexample: when the department/EPCI re-query fails, the canton
refresh (which would otherwise run on a resident canton set) is skipped
entirely — a failure in one refresh path does block the others. -/
theorem c6_dept_failure_blocks_cex :
    RefreshEffect.updateCanton ∉
      filterChangeListener Outcome.failed Outcome.ok Outcome.ok Outcome.ok true true true
    ∧ RefreshEffect.updateCanton ∈
      filterChangeListener Outcome.ok Outcome.ok Outcome.ok Outcome.ok true true true := by
  decide

/-- C6 (amended): only the resident canton and iris refresh paths are
error-handled independently — each applies exactly when its own query
succeeds, whatever the other outcomes are — while the department/EPCI
re-query is not error-handled and its failure aborts every other refresh
path, and the sidebar re-fetch failure skips the final legend update. -/
theorem c6_refresh_independence :
    ∀ (d cq iq sb : Outcome) (cl il hs : Bool),
    (d = Outcome.failed → filterChangeListener d cq iq sb cl il hs = [])
    ∧ (d = Outcome.ok → cl = true →
        (RefreshEffect.updateCanton ∈ filterChangeListener d cq iq sb cl il hs
          ↔ cq = Outcome.ok))
    ∧ (d = Outcome.ok → il = true →
        (RefreshEffect.updateIris ∈ filterChangeListener d cq iq sb cl il hs
          ↔ iq = Outcome.ok))
    ∧ (d = Outcome.ok → hs = true →
        (RefreshEffect.refreshSidebar ∈ filterChangeListener d cq iq sb cl il hs
          ↔ sb = Outcome.ok))
    ∧ (d = Outcome.ok → hs = true → sb = Outcome.failed →
        RefreshEffect.legend ∉ filterChangeListener d cq iq sb cl il hs) := by
  refine fun d cq iq sb cl il hs => ⟨?_, ?_, ?_, ?_, ?_⟩ <;>
    revert d cq iq sb cl il hs <;> decide

/-- C6 witness: the amended theorem evaluated with a failing department/EPCI
re-query and with a failing canton query. -/
theorem c6_refresh_independence_w :
    filterChangeListener Outcome.failed Outcome.ok Outcome.ok Outcome.ok true true true = []
    ∧ (RefreshEffect.updateIris ∈
        filterChangeListener Outcome.ok Outcome.failed Outcome.ok Outcome.ok true true true
        ↔ Outcome.ok = Outcome.ok) :=
  ⟨(c6_refresh_independence Outcome.failed Outcome.ok Outcome.ok Outcome.ok true true true).1 rfl,
   (c6_refresh_independence Outcome.ok Outcome.failed Outcome.ok Outcome.ok true true true).2.2.1
     rfl rfl⟩

theorem markLoading_loadedDept (s : SubState) (o : Option String) :
    (markLoading s o).loadedDept = s.loadedDept := by
  cases o <;> rfl

theorem subRequest_eq_some (t z : ℚ) (c : Option String) (s : SubState) (c1 : String) :
    subRequest t z c s = some c1 ↔
      (t ≤ z ∧ c = some c1 ∧ s.loadedDept ≠ some c1 ∧ s.loadingDept ≠ some c1) := by
  cases c with
  | none => simp [subRequest]
  | some c0 =>
    dsimp only [subRequest]
    by_cases hcond : t ≤ z ∧ s.loadedDept ≠ some c0 ∧ s.loadingDept ≠ some c0
    · rw [if_pos hcond]
      constructor
      · intro he
        rw [Option.some_inj] at he
        subst he
        exact ⟨hcond.1, rfl, hcond.2.1, hcond.2.2⟩
      · intro hp
        rw [Option.some_inj]
        exact Option.some_inj.mp hp.2.1
    · rw [if_neg hcond]
      constructor
      · intro he
        exact absurd he (by simp)
      · intro hp
        rcases hp with ⟨ht, hcc, hld, hlg⟩
        rw [Option.some_inj] at hcc
        subst hcc
        exact absurd ⟨ht, hld, hlg⟩ hcond

theorem moveendStep_cantonRequest (z : ℚ) (c : Option String) (k i : SubState) :
    (moveendStep z c k i).1.cantonRequest = subRequest CANTON_ZOOM_THRESHOLD z c k := rfl

theorem moveendStep_irisRequest (z : ℚ) (c : Option String) (k i : SubState) :
    (moveendStep z c k i).1.irisRequest = subRequest IRIS_ZOOM_THRESHOLD z c i := rfl

theorem moveendStep_cantonEvicted (z : ℚ) (c : Option String) (k i : SubState) :
    (moveendStep z c k i).1.cantonEvicted
      = (decide (z < CANTON_ZOOM_OUT) && k.loadedDept.isSome) := by
  show (decide (z < CANTON_ZOOM_OUT)
        && (markLoading k (subRequest CANTON_ZOOM_THRESHOLD z c k)).loadedDept.isSome)
      = (decide (z < CANTON_ZOOM_OUT) && k.loadedDept.isSome)
  rw [markLoading_loadedDept]

theorem moveendStep_irisEvicted (z : ℚ) (c : Option String) (k i : SubState) :
    (moveendStep z c k i).1.irisEvicted
      = (decide (z < IRIS_ZOOM_THRESHOLD - 1) && i.loadedDept.isSome) := by
  show (decide (z < IRIS_ZOOM_THRESHOLD - 1)
        && (markLoading i (subRequest IRIS_ZOOM_THRESHOLD z c i)).loadedDept.isSome)
      = (decide (z < IRIS_ZOOM_THRESHOLD - 1) && i.loadedDept.isSome)
  rw [markLoading_loadedDept]

/-- C5: on a settle event, a canton load is requested for the center
department exactly when zoom ≥ 9, the center department is known and it
differs from both the resident canton owner and the in-flight canton
target; the canton set is evicted exactly when zoom < 8 and a set is
resident; the iris rules are symmetric with load threshold 11 and evict
threshold 10. -/
theorem c5_moveend_triggers (zoom : ℚ) (center : Option String) (canton iris : SubState) :
    (∀ c, (moveendStep zoom center canton iris).1.cantonRequest = some c ↔
      (9 ≤ zoom ∧ center = some c ∧ canton.loadedDept ≠ some c ∧ canton.loadingDept ≠ some c))
    ∧ ((moveendStep zoom center canton iris).1.cantonEvicted = true ↔
      (zoom < 8 ∧ canton.loadedDept.isSome = true))
    ∧ (∀ c, (moveendStep zoom center canton iris).1.irisRequest = some c ↔
      (11 ≤ zoom ∧ center = some c ∧ iris.loadedDept ≠ some c ∧ iris.loadingDept ≠ some c))
    ∧ ((moveendStep zoom center canton iris).1.irisEvicted = true ↔
      (zoom < 10 ∧ iris.loadedDept.isSome = true)) := by
  have hct : CANTON_ZOOM_THRESHOLD = (9 : ℚ) := rfl
  have hit : IRIS_ZOOM_THRESHOLD = (11 : ℚ) := rfl
  have hco : CANTON_ZOOM_OUT = (8 : ℚ) := rfl
  have hio : IRIS_ZOOM_THRESHOLD - 1 = (10 : ℚ) := by norm_num [IRIS_ZOOM_THRESHOLD]
  refine ⟨?_, ?_, ?_, ?_⟩
  · intro c
    rw [moveendStep_cantonRequest, subRequest_eq_some, hct]
  · rw [moveendStep_cantonEvicted, hco]
    simp
  · intro c
    rw [moveendStep_irisRequest, subRequest_eq_some, hit]
  · rw [moveendStep_irisEvicted, hio]
    simp

/-- C5 witness: at zoom 9.5 centered on an unloaded department 75 a canton
load is requested, and at zoom 7 with a resident canton set the eviction
fires. -/
theorem c5_moveend_triggers_w :
    (moveendStep (19 / 2) (some "75") clearedSub clearedSub).1.cantonRequest = some "75"
    ∧ (moveendStep 7 none
        { loadedDept := some "75", loadingDept := none, popMap := [("7501", 5)],
          colorScale := some (makeColorScale [5]), hasLayers := true,
          codeKey := some "can_code" } clearedSub).1.cantonEvicted = true :=
  ⟨((c5_moveend_triggers (19 / 2) (some "75") clearedSub clearedSub).1 "75").mpr
      ⟨by norm_num, rfl, by decide, by decide⟩,
   ((c5_moveend_triggers 7 none
      { loadedDept := some "75", loadingDept := none, popMap := [("7501", 5)],
        colorScale := some (makeColorScale [5]), hasLayers := true,
        codeKey := some "can_code" } clearedSub).2.1).mpr ⟨by norm_num, rfl⟩⟩

theorem moveendStep_canton2 (z : ℚ) (c : Option String) (k i : SubState) :
    (moveendStep z c k i).2.1 =
      (if (decide (z < CANTON_ZOOM_OUT)
            && (markLoading k (subRequest CANTON_ZOOM_THRESHOLD z c k)).loadedDept.isSome) = true
       then clearedSub
       else markLoading k (subRequest CANTON_ZOOM_THRESHOLD z c k)) := rfl

/-- C10: when handleCantonNeeded takes the at-most-2-rows skip-to-iris path
it never reaches loadCanton, so the canton cache (including the in-flight
marker left at the target department by the moveend handler) is unchanged,
any canton set resident for a different department stays installed, every
later settle centered on that department is suppressed from requesting a
canton load, and an eviction is what resets the marker to none. -/
theorem c10_skip_path_frame (canton iris : SubState) (d : String)
    (rows : List (String × ℚ)) (cres : FetchResult) (ia : Bool)
    (irows : List (String × ℚ)) (ires : FetchResult)
    (h1 : rows.length ≤ 2) (h2 : canton.loadingDept = some d) :
    (runCantonNeeded d true rows cres ia irows ires canton iris).1 = canton
    ∧ (runCantonNeeded d true rows cres ia irows ires canton iris).1.loadingDept = some d
    ∧ (∀ (z : ℚ) (irisS : SubState),
        (moveendStep z (some d) canton irisS).1.cantonRequest = none)
    ∧ (∀ (z : ℚ) (c : Option String) (irisS : SubState),
        (moveendStep z c canton irisS).1.cantonEvicted = true →
        (moveendStep z c canton irisS).2.1 = clearedSub
        ∧ clearedSub.loadingDept = none) := by
  have hA : (runCantonNeeded d true rows cres ia irows ires canton iris).1 = canton := by
    unfold runCantonNeeded
    simp [h1]
  refine ⟨hA, by rw [hA]; exact h2, ?_, ?_⟩
  · intro z irisS
    rw [moveendStep_cantonRequest]
    dsimp only [subRequest]
    exact if_neg (fun hc => hc.2.2 h2)
  · intro z c irisS hev
    have hb := (moveendStep_cantonEvicted z c canton irisS).symm.trans hev
    exact ⟨by rw [moveendStep_canton2, markLoading_loadedDept, if_pos hb], rfl⟩

/-- C10 witness: department 75 returns one canton row while department 92
owns the resident canton set; the 92 set stays installed, the marker stays
at 75, and a later settle centered on 75 requests nothing. -/
theorem c10_skip_path_frame_w :
    (runCantonNeeded "75" true [("7501", 9)] FetchResult.notOk true []
      FetchResult.notOk
      { loadedDept := some "92", loadingDept := some "75", popMap := [("9201", 10)],
        colorScale := some (makeColorScale [10]), hasLayers := true,
        codeKey := some "can_code" } clearedSub).1
      = { loadedDept := some "92", loadingDept := some "75", popMap := [("9201", 10)],
          colorScale := some (makeColorScale [10]), hasLayers := true,
          codeKey := some "can_code" }
    ∧ (moveendStep (19 / 2) (some "75")
        { loadedDept := some "92", loadingDept := some "75", popMap := [("9201", 10)],
          colorScale := some (makeColorScale [10]), hasLayers := true,
          codeKey := some "can_code" } clearedSub).1.cantonRequest = none := by
  have h := c10_skip_path_frame
    { loadedDept := some "92", loadingDept := some "75", popMap := [("9201", 10)],
      colorScale := some (makeColorScale [10]), hasLayers := true,
      codeKey := some "can_code" } clearedSub "75" [("7501", 9)] FetchResult.notOk true []
    FetchResult.notOk (by decide) rfl
  exact ⟨h.1, h.2.2.1 (19 / 2) clearedSub⟩

/-- C2: the event trace of the claimed scenario — a canton load for
department 75 in flight, the center moves to 92, a 92 load is requested,
then the 75 boundary fetch resolves first.  The code installs the stale 75
response as the resident canton set (loadedDept becomes 75 while the center
department is 92 and the 92 load is still pending), instead of discarding
it as the claim requires. -/
theorem c2_stale_response_installed :
    (runTrace
      [Ev.moveend 10 (some "75"),
       Ev.cantonQueryDone "75" true [("7501", 10), ("7502", 20), ("7503", 30)],
       Ev.moveend 10 (some "92"),
       Ev.cantonQueryDone "92" true [("9201", 10), ("9202", 20), ("9203", 30)],
       Ev.cantonFetchDone "75" (FetchResult.ok 5 "can_code")]).canton.loadedDept
      = some "75"
    ∧ (runTrace
      [Ev.moveend 10 (some "75"),
       Ev.cantonQueryDone "75" true [("7501", 10), ("7502", 20), ("7503", 30)],
       Ev.moveend 10 (some "92"),
       Ev.cantonQueryDone "92" true [("9201", 10), ("9202", 20), ("9203", 30)],
       Ev.cantonFetchDone "75" (FetchResult.ok 5 "can_code")]).centerDeptCode
      = some "92"
    ∧ ((runTrace
      [Ev.moveend 10 (some "75"),
       Ev.cantonQueryDone "75" true [("7501", 10), ("7502", 20), ("7503", 30)],
       Ev.moveend 10 (some "92"),
       Ev.cantonQueryDone "92" true [("9201", 10), ("9202", 20), ("9203", 30)],
       Ev.cantonFetchDone "75" (FetchResult.ok 5 "can_code")]).pendingCantonFetch.map
        Prod.fst) = ["92"] := by
  decide

end ExplorerCore
